import Mathlib

/-!
Verification development for the `Victor` orchestration pipeline of
`fragmenstein/victor/__init__.py` (version 0.4).

The Python class is shallowly embedded as executable Lean definitions:

* pure helpers (`slugify`, `_assert_inputs`, `_fix_covalent`,
  `_get_constraint`, `_make_coordinate_constraints`,
  `_place_fragmenstein`) become Lean functions translated line by line
  from the source;
* fallible Python code becomes `Except PyError`;
* the external collaborators (rdkit, pymol, pyrosetta, rdkit_to_params,
  the Fragmenstein/Egor classes and the `_VictorUtilsMixin` class
  attributes) are not part of the source file, so their results enter
  the model as explicit inputs (`Oracles`, `VictorConfig`) and, where a
  data contract is needed, as structures modelled from the spec;
* file-system and logging side effects become an explicit event trace
  (`Event`), so that statements such as "no file is created before
  validation" are about the trace.

Python `float` values are modelled as exact rationals; the textual
rendering of numbers and the exact wording of interpreter-generated
exception messages are abstracted (messages are kept apostrophe-free).
-/

namespace Fragmenstein

/-- Python exception values: the class name together with the message.
Only `Exception` subclasses are modelled, since the source's
`except Exception` boundary is about those. -/
inductive PyError where
  | valueError (msg : String)
  | assertionError (msg : String)
  | attributeError (msg : String)
  | typeError (msg : String)
  | indexError (msg : String)
  | osError (msg : String)
  | otherError (cls msg : String)
  deriving DecidableEq, Repr

/-- `err.__class__.__name__` of the modelled exception. -/
def PyError.className : PyError → String
  | .valueError _ => "ValueError"
  | .assertionError _ => "AssertionError"
  | .attributeError _ => "AttributeError"
  | .typeError _ => "TypeError"
  | .indexError _ => "IndexError"
  | .osError _ => "OSError"
  | .otherError c _ => c

/-- `str(err)` of the modelled exception. -/
def PyError.message : PyError → String
  | .valueError m => m
  | .assertionError m => m
  | .attributeError m => m
  | .typeError m => m
  | .indexError m => m
  | .osError m => m
  | .otherError _ m => m

/-- Observable side effects and log records of one pipeline run, in
program order. `write`/`writeJson` record a file creation, `mkdir` a
directory creation, `parameterize` the external parameterisation call,
`minimiseRun` the external minimiser call. -/
inductive Event where
  | mkdir (path : String)
  | write (path : String)
  | writeJson (path : String) (keys : List String)
  | parameterize
  | minimiseRun
  | logInfo (m : String)
  | logDebug (m : String)
  | logWarning (m : String)
  | logException (m : String)
  deriving DecidableEq, Repr

/-- Events that touch the file system or start an external process,
as opposed to pure log records. -/
def Event.isSideEffect : Event → Bool
  | .mkdir _ => true
  | .write _ => true
  | .writeJson _ _ => true
  | .parameterize => true
  | .minimiseRun => true
  | .logInfo _ => false
  | .logDebug _ => false
  | .logWarning _ => false
  | .logException _ => false

/-- One entry of the class attribute `warhead_definitions` (kept by the
mixin, typed here per the class docstring: name, covalent smiles,
covalent atom names, noncovalent smiles and atom names, optional
constraint template). -/
structure WarheadDef where
  name : String
  covalent : String
  covalent_atomnames : List String
  noncovalent : String
  noncovalent_atomnames : List String
  constraint : Option String
  deriving DecidableEq, Repr

/-- One entry of the class attribute `covalent_definitions` (kept by the
mixin; typed per the class docstring: residue code, two-atom smiles with
the connection, and the corresponding atom names, accessed by the code
as `cov_def[atomnames]`). -/
structure CovDef where
  residue : String
  smiles : String
  atomnames : List String
  deriving DecidableEq, Repr

/-- Modelled from the spec: ConstraintSpec, the data contract of the
external `rdkit_to_params.Constraints` class. `seed` holds the
covalent seed (the pair of smiles strings and the combined atom-name
list handed to the constructor); it is `none` for `Constraints.mock()`.
`custom_constraint` is the append-only free-text tail. -/
structure ConstraintsModel where
  seed : Option ((String × String) × List String)
  ligand_res : String
  target_res : String
  custom_constraint : String
  deriving DecidableEq, Repr

/-- Modelled from the spec: `Constraints.mock()` returns a minimal
ConstraintSpec carrying no covalent-derived lines and empty custom
text. -/
def mockConstraints : ConstraintsModel :=
  { seed := none, ligand_res := "", target_res := "", custom_constraint := "" }

/-- Modelled from the spec: the external class renders its
covalent-derived restraint lines first, then the custom text; the
rendering of the covalent seed is abstracted by the parameter `f`. -/
def constraintText (f : (String × String) → List String → String)
    (c : ConstraintsModel) : String :=
  (match c.seed with
   | none => ""
   | some (sm, ns) => f sm ns) ++ c.custom_constraint

/-- `str(x)` for an optional string, as Python renders `None`. -/
def pyStr : Option String → String
  | none => "None"
  | some s => s

/-- `c in s` on a Python string (structural, over the character
list). -/
def pyContains (s : String) (c : Char) : Bool :=
  s.toList.contains c

/-- `s.upper()` (structural, over the character list). -/
def pyUpper (s : String) : String :=
  String.mk (s.toList.map Char.toUpper)

/-- `s.strip()` (structural, over the character list). -/
def pyStrip (s : String) : String :=
  String.mk (((s.toList.dropWhile Char.isWhitespace).reverse.dropWhile
    Char.isWhitespace).reverse)

/-- Truthiness of an optional Python string (`None` and the empty
string are falsy). -/
def truthy : Option String → Bool
  | none => false
  | some s => s != ""

/-- `re.sub(r'[\W_.-]+', '-', name)`: every maximal run of characters
outside `\w`, plus explicit underscore/dot/dash (i.e. everything not
alphanumeric, `\w` taken over ASCII), becomes a single dash. -/
def slugify (s : String) : String :=
  (s.toList.foldl
    (fun (acc : String × Bool) c =>
      if c.isAlphanum then (acc.1.push c, false)
      else if acc.2 then acc
      else (acc.1.push '-', true))
    ("", false)).1

/-- Lines 109-115: the covalency pre-check at the top of the guarded
body. A `*` in the smiles without a covalent residue index raises;
otherwise `is_covalent` is derived from the presence of `*`. (The
`covalent_resn is None` disjunct of line 109 can never hold, since
line 101 has already called `.upper()` on it.) -/
def covalent_precheck (long_name smiles : String)
    (covalent_resi : Option String) : Except PyError Bool :=
  if pyContains smiles '*' ∧ covalent_resi = none then
    .error (.valueError (long_name ++ " - is covalent but without known covalent residues"))
  else
    .ok (pyContains smiles '*')

/-- Lines 184-190, `_assert_inputs`: the four eager input checks, in
source order; `assert` failures become `AssertionError`, the catalog
check a `ValueError`. `ligand_resn` and `covalent_resn` are the stored
(uppercased) values; `hits_count` is `len(self.hits)`. -/
def assert_inputs (long_name ligand_resn : String) (hits_count : Nat)
    (covalent_resn : String) (covalent_definitions : List CovDef) :
    Except PyError Unit :=
  if ligand_resn.length ≠ 3 then
    .error (.assertionError (long_name ++ " - " ++ ligand_resn ++ " is not 3 char long."))
  else if hits_count = 0 then
    .error (.assertionError (long_name ++ " - No hits to use to construct"))
  else if ligand_resn = "UNL" then
    .error (.assertionError (long_name ++ " - It cannot be UNL as it s the unspecified resn in rdkit"))
  else if covalent_resn ≠ "" ∧ covalent_definitions.filter (fun d => d.residue == covalent_resn) = [] then
    .error (.valueError (long_name ++ " - Unrecognised type " ++ covalent_resn))
  else
    .ok ()

/-- The five exception values that `covalent_precheck` and
`assert_inputs` can produce — the spec's `ConfigurationError`
taxonomy. -/
def configuration_errors (long_name ligand_resn covalent_resn : String) :
    List PyError :=
  [ .valueError (long_name ++ " - is covalent but without known covalent residues")
  , .assertionError (long_name ++ " - " ++ ligand_resn ++ " is not 3 char long.")
  , .assertionError (long_name ++ " - No hits to use to construct")
  , .assertionError (long_name ++ " - It cannot be UNL as it s the unspecified resn in rdkit")
  , .valueError (long_name ++ " - Unrecognised type " ++ covalent_resn) ]

/-- The `for war_def in self.warhead_definitions` loop of lines
259-261: the first catalog entry whose covalent smiles is a
substructure of `params.mol` (`hasSub` stands for
`self.params.mol.HasSubstructMatch (MolFromSmiles pattern)`). -/
def find_warhead (hasSub : String → Bool) : List WarheadDef → Option WarheadDef
  | [] => none
  | w :: ws => if hasSub w.covalent then some w else find_warhead hasSub ws

/-- Lines 265-272: the `Constraints` object built from the matched
warhead and the covalent-residue definition, with the optional
warhead constraint template assigned to `custom_constraint`. -/
def warhead_constraints (w : WarheadDef) (cov : CovDef)
    (ligand_resi target_resi : String) : ConstraintsModel :=
  { seed := some ((w.covalent, cov.smiles), w.covalent_atomnames ++ cov.atomnames)
  , ligand_res := ligand_resi
  , target_res := target_resi
  , custom_constraint := match w.constraint with
      | some t => t
      | none => "" }

/-- Lines 256-274, `_fix_covalent`: first matching warhead wins; no
match raises `ValueError`; the covalent-definition lookup takes element
`[0]` of the filtered list (an `IndexError` when empty, though
`_assert_inputs` has already excluded that). -/
def fix_covalent (long_name : String) (hasSub : String → Bool)
    (warhead_definitions : List WarheadDef)
    (covalent_definitions : List CovDef)
    (covalent_resn ligand_resi target_resi : String) :
    Except PyError ConstraintsModel :=
  match find_warhead hasSub warhead_definitions with
  | none => .error (.valueError (long_name ++ " - Unsure what the warhead is."))
  | some w =>
    match covalent_definitions.filter (fun d => d.residue == covalent_resn) with
    | [] => .error (.indexError "list index out of range")
    | cov :: _ => .ok (warhead_constraints w cov ligand_resi target_resi)

/-- Lines 239-254, `_get_constraint`: covalent jobs get the
`_fix_covalent` result with any truthy extra constraint appended;
non-covalent jobs get a mock carrying just the extra text, or no
constraint object at all. -/
def get_constraint (long_name : String) (is_covalent : Bool)
    (hasSub : String → Bool)
    (warhead_definitions : List WarheadDef)
    (covalent_definitions : List CovDef)
    (covalent_resn ligand_resi target_resi : String)
    (extra_constraint : Option String) :
    Except PyError (Option ConstraintsModel) :=
  if is_covalent then
    match fix_covalent long_name hasSub warhead_definitions covalent_definitions
        covalent_resn ligand_resi target_resi with
    | .error e => .error e
    | .ok c =>
      if truthy extra_constraint then
        .ok (some { c with custom_constraint := c.custom_constraint ++ extra_constraint.getD "" })
      else
        .ok (some c)
  else
    if truthy extra_constraint then
      .ok (some { mockConstraints with
                  custom_constraint := mockConstraints.custom_constraint ++ extra_constraint.getD "" })
    else
      .ok none

/-- One atom of the positioned molecule returned by the external
Fragmenstein collaborator. Modelled from the spec (PlacementResult):
PDB atom name and residue code, rdkit element symbol, the per-atom
provenance flag (`origins[i]` truthiness) and spread statistic, and
the conformer coordinates. -/
structure FragAtom where
  name : String
  symbol : String
  resn : String
  origin : Bool
  stdev : ℚ
  x : ℚ
  y : ℚ
  z : ℚ
  deriving DecidableEq, Repr

/-- One `CoordinateConstraint` line of lines 203-205, as the tuple of
f-string fields (the literal pieces `CA`, `HARMONIC 0` are restored by
`renderCoordLine`). -/
structure CoordLine where
  atom_name : String
  ligand_resi : String
  covalent_resi : String
  x : ℚ
  y : ℚ
  z : ℚ
  width : ℚ
  deriving DecidableEq, Repr

/-- The line built for one kept atom (line 203-205): anchored at the
atom's coordinates, harmonic width `std[i] + 1`. -/
def coordLineOf (ligand_resi covalent_resi : String) (a : FragAtom) : CoordLine :=
  { atom_name := a.name
  , ligand_resi := ligand_resi
  , covalent_resi := covalent_resi
  , x := a.x, y := a.y, z := a.z
  , width := a.stdev + 1 }

/-- Lines 192-206, `_make_coordinate_constraints`: one line per atom
with a truthy origin whose element symbol (sic, line 200 tests
`atom.GetSymbol()`) is not in `self._connected_names`. -/
def make_coordinate_constraints (connected_names : List String)
    (ligand_resi covalent_resi : String) (atoms : List FragAtom) :
    List CoordLine :=
  (atoms.filter (fun a => a.origin && !(connected_names.contains a.symbol))).map
    (coordLineOf ligand_resi covalent_resi)

/-- Exact rendering of a rational (stands in for Python float
formatting, whose digits are immaterial here). -/
def ratStr (q : ℚ) : String :=
  if q.den = 1 then toString q.num
  else toString q.num ++ "/" ++ toString q.den

/-- The f-string of lines 203-205 for one line. -/
def renderCoordLine (l : CoordLine) : String :=
  "CoordinateConstraint " ++ l.atom_name ++ " " ++ l.ligand_resi ++ " "
    ++ "CA " ++ l.covalent_resi ++ " "
    ++ ratStr l.x ++ " " ++ ratStr l.y ++ " " ++ ratStr l.z
    ++ " HARMONIC 0 " ++ ratStr l.width ++ "\n"

/-- `''.join(lines)` of `_make_coordinate_constraints`. -/
def coordinate_constraint_text (connected_names : List String)
    (ligand_resi covalent_resi : String) (atoms : List FragAtom) : String :=
  String.join ((make_coordinate_constraints connected_names ligand_resi covalent_resi atoms).map
    renderCoordLine)

/-- Line 139: `self.constraint.custom_constraint += self._make_coordinate_constraints()`.
When `self.constraint` is `None` this is an attribute access on `None`
and raises `AttributeError`. -/
def append_coordinate_constraints (connected_names : List String)
    (ligand_resi covalent_resi : String) (atoms : List FragAtom)
    (constraint : Option ConstraintsModel) :
    Except PyError (Option ConstraintsModel) :=
  match constraint with
  | none => .error (.attributeError "NoneType object has no attribute custom_constraint")
  | some c =>
    .ok (some { c with custom_constraint :=
      c.custom_constraint ++ coordinate_constraint_text connected_names ligand_resi covalent_resi atoms })

/-- One atom record of a PDB block held in the pymol session: name,
residue code, residue index, chain. -/
structure PdbAtom where
  name : String
  resn : String
  resi : String
  chain : String
  deriving DecidableEq, Repr

/-- `re.match('(\d+)(\D?)', s).groups()` (lines 209-210): a maximal
leading digit run, then at most one further character (which, coming
right after the greedy digit run, is never a digit); `none` when `s`
does not start with a digit, in which case `.groups()` on the failed
match raises `AttributeError`. -/
def parse_resi (s : String) : Option (String × String) :=
  let ds := s.toList.takeWhile Char.isDigit
  if ds.isEmpty then none
  else some (String.mk ds, String.mk ((s.toList.drop ds.length).take 1))

/-- The `for c in self._connected_names: pymol.cmd.remove(f'name {c}')`
loop of lines 224-225, over all loaded atoms. -/
def removeByNames (connected_names : List String) (atoms : List PdbAtom) :
    List PdbAtom :=
  connected_names.foldl (fun acc c => acc.filter (fun a => a.name != c)) atoms

/-- The covalent `LINK` record of line 231, as the tuple of its
f-string fields (the literal pieces `SG`, `1555 1555 1.8` are fixed in
the format string). -/
structure LinkRecord where
  covalent_resn : String
  p_chain : String
  p_resi : String
  connect_name : String
  ligand_resn : String
  l_chain : String
  l_resi : String
  deriving DecidableEq, Repr

/-- The merged receptor+ligand structure emitted by
`_place_fragmenstein`: the optional prepended `LINK` record and the
atom records of `get_pdbstr('*')`. -/
structure PlacedModel where
  link : Option LinkRecord
  atoms : List PdbAtom
  deriving DecidableEq, Repr

/-- Lines 208-233, `_place_fragmenstein`: parse the ligand and covalent
residue locators (both parsed unconditionally; `str(None)` has no
leading digit), default chains `B`/`A`, relabel the scaffold atoms,
drop dummy atoms (name `R`), connection-named atoms and residual `UNL`
atoms from everything loaded, and prepend the `LINK` record when
covalent. `connect_name` stands for
`self.params.pad_name(self.params.CONNECT[0].atom_name)`. -/
def place_fragmenstein (connected_names : List String) (is_covalent : Bool)
    (ligand_resn covalent_resn : String)
    (ligand_resi : String) (covalent_resi : Option String)
    (connect_name : String)
    (apoAtoms : List PdbAtom) (fragAtoms : List FragAtom) :
    Except PyError PlacedModel :=
  match parse_resi ligand_resi with
  | none => .error (.attributeError "NoneType object has no attribute groups")
  | some (l_resi, l_chain0) =>
    match parse_resi (pyStr covalent_resi) with
    | none => .error (.attributeError "NoneType object has no attribute groups")
    | some (p_resi, p_chain0) =>
      let p_chain := if p_chain0.isEmpty then "A" else p_chain0
      let l_chain := if l_chain0.isEmpty then "B" else l_chain0
      let scaffold := fragAtoms.map (fun a =>
        PdbAtom.mk a.name a.resn l_resi l_chain)
      let loaded := apoAtoms ++ scaffold
      let afterDummy := loaded.filter (fun a => a.name != "R")
      let afterConn := removeByNames connected_names afterDummy
      let afterUnl := afterConn.filter (fun a => a.resn != "UNL")
      if is_covalent then
        .ok { link := some (LinkRecord.mk covalent_resn p_chain p_resi
                connect_name ligand_resn l_chain l_resi)
            , atoms := afterUnl }
      else
        .ok { link := none, atoms := afterUnl }

/-- The result of `Params.from_smiles` as far as the orchestrator reads
it: the (padded) name of the first declared attachment atom. -/
structure ParamsModel where
  connect_name : String
  deriving DecidableEq, Repr

/-- The constructor arguments of `Victor.__init__` (lines 69-80). The
hit molecules are represented by their `_Name` property (empty string
when absent or blank), which is all the orchestrator reads from them
besides passing them through. -/
structure VictorInputs where
  smiles : String
  hits : List String
  long_name : String
  ligand_resn : String
  ligand_resi : String
  covalent_resn : String
  covalent_resi : Option String
  extra_constraint : Option String
  pose_fx_present : Bool
  deriving DecidableEq, Repr

/-- The class attributes read by a job: `work_path`,
`_connected_names`, `warhead_definitions`, `covalent_definitions`
(process-wide read-only configuration, kept by the mixin). -/
structure VictorConfig where
  work_path : String
  connected_names : List String
  warhead_definitions : List WarheadDef
  covalent_definitions : List CovDef
  deriving DecidableEq, Repr

/-- The results of every external-collaborator call a job can make, in
pipeline order: each fallible call is an `Except`, pure queries are
functions. `fileRead` is `open(pdb_filename).read()` (line 97, before
the guarded body). -/
structure Oracles where
  fileRead : Except PyError String
  dirExists : String → Bool
  paramsFromSmiles : Except PyError ParamsModel
  hasSubstruct : String → Bool
  attachmentAtom : Except PyError Unit
  postParamsHook : Except PyError Unit
  fragResult : Except PyError (List FragAtom)
  apoAtoms : List PdbAtom
  postFragHook : Except PyError Unit
  paramsToPose : Except PyError Unit
  getScorefxn : Except PyError Unit
  egorInit : Except PyError Unit
  poseFxHook : Except PyError Unit
  poseModHook : Except PyError Unit
  pose2strA : Except PyError String
  minimiseCall : Except PyError Unit
  pose2strB : Except PyError String
  postEgorHook : Except PyError Unit
  ligandScore : Except PyError Unit
  molFromPose : Except PyError Unit
  assignBondOrders : Except PyError Unit
  mrmsdCalc : Except PyError Unit

/-- A pipeline step: the events it emitted (also when it raised) and
its result. -/
def M (α : Type) : Type := List Event × Except PyError α

/-- Sequencing of pipeline steps: an exception short-circuits, events
accumulate in program order. -/
def bindE {α β : Type} (a : M α) (f : α → M β) : M β :=
  match a with
  | (evs, .error e) => (evs, .error e)
  | (evs, .ok x) => (evs ++ (f x).1, (f x).2)

/-- A step with no events. -/
def liftE {α : Type} (r : Except PyError α) : M α := ([], r)

/-- A step that only emits events. -/
def emit (evs : List Event) : M Unit := (evs, .ok ())

/-- A pure step. -/
def pureE {α : Type} (x : α) : M α := ([], .ok x)

/-- `os.path.join(self.work_path, self.long_name, self.long_name + ext)`. -/
def jobFile (cfg : VictorConfig) (long_name ext : String) : String :=
  cfg.work_path ++ "/" ++ long_name ++ "/" ++ long_name ++ ext

/-- `os.path.join(self.work_path, self.long_name, fname)`. -/
def jobDirFile (cfg : VictorConfig) (long_name fname : String) : String :=
  cfg.work_path ++ "/" ++ long_name ++ "/" ++ fname

/-- Lines 175-182, `_make_output_folder`: create the work directory and
the per-job directory when missing; warn (never fail) when the per-job
directory already exists. -/
def folder_events (cfg : VictorConfig) (dirExists : String → Bool)
    (long_name : String) : List Event :=
  (if dirExists cfg.work_path then [] else [Event.mkdir cfg.work_path]) ++
  (if dirExists (cfg.work_path ++ "/" ++ long_name) then
     [Event.logWarning (long_name ++ " - Folder " ++ (cfg.work_path ++ "/" ++ long_name) ++ " exists.")]
   else [Event.mkdir (cfg.work_path ++ "/" ++ long_name)])

def make_output_folder (cfg : VictorConfig) (dirExists : String → Bool)
    (long_name : String) : M Unit :=
  emit (folder_events cfg dirExists long_name)

/-- Lines 383-399, `_checkpoint_bravo`: the three intermediate-geometry
mol files and the `{smiles, origin, stdev}` provenance dump. -/
def checkpoint_bravo (cfg : VictorConfig) (long_name : String) : M Unit :=
  emit [ Event.logDebug (long_name ++ " - saving mols from fragmenstein")
       , Event.write (jobFile cfg long_name ".scaffold.mol")
       , Event.write (jobFile cfg long_name ".chimera.mol")
       , Event.write (jobFile cfg long_name ".positioned.mol")
       , Event.writeJson (jobFile cfg long_name ".fragmenstein.json")
           ["smiles", "origin", "stdev"] ]

/-- Lines 333-351, `_save_prerequisites`: params file, unminimised holo
file, and the `.con` constraint file only when a constraint object
exists (a `Constraints` instance is truthy); otherwise the constraint
path is the empty string. -/
def save_prerequisites (cfg : VictorConfig) (long_name : String)
    (constraint : Option ConstraintsModel) : M (String × String × String) :=
  let pf := jobFile cfg long_name ".params"
  let hf := jobFile cfg long_name ".holo_unminimised.pdb"
  match constraint with
  | some _ =>
    ( [ Event.logDebug (long_name ++ " - saving params"), Event.write pf
      , Event.logDebug (long_name ++ " - saving holo (unmimised)"), Event.write hf
      , Event.logDebug (long_name ++ " - saving constraint")
      , Event.write (jobFile cfg long_name ".con") ]
    , .ok (pf, hf, jobFile cfg long_name ".con") )
  | none =>
    ( [ Event.logDebug (long_name ++ " - saving params"), Event.write pf
      , Event.logDebug (long_name ++ " - saving holo (unmimised)"), Event.write hf ]
    , .ok (pf, hf, "") )

/-- Lines 357-361: the file stem used for a saved hit — its `_Name`
property, or `hit{index}` when absent or blank. -/
def hitName (idx : Nat) (n : String) : String :=
  if pyStrip n != "" then n else "hit" ++ toString idx

/-- Lines 354-381, `_checkpoint_alpha`: per-hit pdb/mol files, the
params-template pair, then the params sanity check: re-load the params
file into a pose (external), dump the test pdb, obtain the score
function (external), open the score file — and then
`w.write(scorefxn(pose))` hands a float to `TextIOBase.write`, which
raises `TypeError` unconditionally. -/
def checkpoint_alpha (cfg : VictorConfig) (long_name : String)
    (hits : List String) (paramsToPose getScorefxn : Except PyError Unit) :
    M Unit :=
  bindE (emit ((hits.enum.flatMap (fun p =>
      [ Event.write (jobDirFile cfg long_name (hitName p.1 p.2 ++ ".pdb"))
      , Event.write (jobDirFile cfg long_name (hitName p.1 p.2 ++ ".mol")) ])) ++
      [ Event.write (jobFile cfg long_name ".params_template.pdb")
      , Event.write (jobFile cfg long_name ".params_template.mol")
      , Event.logDebug (long_name ++ " - checking params file works") ]))
  (fun _ => bindE (liftE paramsToPose)
  (fun _ => bindE (emit [Event.write (jobFile cfg long_name ".params_test.pdb")])
  (fun _ => bindE (liftE getScorefxn)
  (fun _ =>
    ( [Event.write (jobFile cfg long_name ".params_test.score")]
    , .error (.typeError "write() argument must be str, not float"))))))

/-- Lines 401-422, `_checkpoint_charlie`: minimised holo dump, ligand
score, ligand recovery and bond-order assignment against the params
template, mRMSD, then the `{Energy, mRMSD, RMSDs}` dump and the
minimised mol file. -/
def checkpoint_charlie (cfg : VictorConfig) (long_name : String)
    (orc : Oracles) : M Unit :=
  bindE (emit [ Event.logDebug (long_name ++ " - saving pose from egor")
              , Event.write (jobFile cfg long_name ".holo_minimised.pdb")
              , Event.logDebug (long_name ++ " - calculating Gibbs") ])
  (fun _ => bindE (liftE orc.ligandScore)
  (fun _ => bindE (emit [Event.logDebug (long_name ++ " - making ligand only")])
  (fun _ => bindE (liftE orc.molFromPose)
  (fun _ => bindE (liftE orc.assignBondOrders)
  (fun _ => bindE (emit [Event.logDebug (long_name ++ " - calculating mRMSD")])
  (fun _ => bindE (liftE orc.mrmsdCalc)
  (fun _ => emit [ Event.writeJson (jobFile cfg long_name ".minimised.json")
                     ["Energy", "mRMSD", "RMSDs"]
                 , Event.write (jobFile cfg long_name ".minimised.mol") ])))))))

/-- Lines 107-166: the body of the single `try` block, stage by stage
in source order. Every `Except.error` produced here is an exception
travelling to the `except Exception` clause of line 167. -/
def victorBody (inp : VictorInputs) (cfg : VictorConfig) (orc : Oracles)
    (long_name : String) : M Unit :=
  bindE (liftE (covalent_precheck long_name inp.smiles inp.covalent_resi))
  (fun is_covalent =>
  bindE (liftE (assert_inputs long_name (pyUpper inp.ligand_resn) inp.hits.length
      (pyUpper inp.covalent_resn) cfg.covalent_definitions))
  (fun _ =>
  bindE (emit [Event.logInfo (long_name ++ " - Starting work")])
  (fun _ =>
  bindE (make_output_folder cfg orc.dirExists long_name)
  (fun _ =>
  bindE (emit [ Event.logDebug (long_name ++ " - Starting parameterisation")
              , Event.parameterize ])
  (fun _ =>
  bindE (liftE orc.paramsFromSmiles)
  (fun params =>
  bindE (emit [Event.logWarning (long_name ++ " - CHI HAS BEEN DISABLED")])
  (fun _ =>
  bindE (liftE (get_constraint long_name is_covalent orc.hasSubstruct
      cfg.warhead_definitions cfg.covalent_definitions
      (pyUpper inp.covalent_resn) inp.ligand_resi (pyStr inp.covalent_resi)
      inp.extra_constraint))
  (fun constraint0 =>
  bindE (if is_covalent then liftE orc.attachmentAtom else pureE ())
  (fun _ =>
  bindE (liftE orc.postParamsHook)
  (fun _ =>
  bindE (emit [Event.logDebug (long_name ++ " - Starting fragmenstein")])
  (fun _ =>
  bindE (liftE orc.fragResult)
  (fun fragAtoms =>
  bindE (emit [Event.logDebug (long_name ++ " - placing fragmenstein")])
  (fun _ =>
  bindE (liftE (place_fragmenstein cfg.connected_names is_covalent
      (pyUpper inp.ligand_resn) (pyUpper inp.covalent_resn)
      inp.ligand_resi inp.covalent_resi params.connect_name
      orc.apoAtoms fragAtoms))
  (fun _placed =>
  bindE (liftE (append_coordinate_constraints cfg.connected_names
      inp.ligand_resi (pyStr inp.covalent_resi) fragAtoms constraint0))
  (fun constraint1 =>
  bindE (checkpoint_bravo cfg long_name)
  (fun _ =>
  bindE (save_prerequisites cfg long_name constraint1)
  (fun _files =>
  bindE (liftE orc.postFragHook)
  (fun _ =>
  bindE (checkpoint_alpha cfg long_name inp.hits orc.paramsToPose orc.getScorefxn)
  (fun _ =>
  bindE (emit [Event.logDebug (long_name ++ " - setting up Egor")])
  (fun _ =>
  bindE (liftE orc.egorInit)
  (fun _ =>
  bindE (if inp.pose_fx_present then
           bindE (emit [Event.logDebug (long_name ++ " - running custom pose mod.")])
             (fun _ => liftE orc.poseFxHook)
         else liftE orc.poseModHook)
  (fun _ =>
  bindE (liftE orc.pose2strA)
  (fun _roundtrip =>
  bindE (emit [ Event.logDebug (long_name ++ " - Egor minimising")
              , Event.minimiseRun ])
  (fun _ =>
  bindE (liftE orc.minimiseCall)
  (fun _ =>
  bindE (liftE orc.pose2strB)
  (fun _minimised =>
  bindE (liftE orc.postEgorHook)
  (fun _ =>
  bindE (checkpoint_charlie cfg long_name orc)
  (fun _ =>
  emit [Event.logDebug (long_name ++ " - Completed")]
  ))))))))))))))))))))))))))))

/-- The terminal state of one job: its slugified identity, the caught
exception when the pipeline failed (`none` means `minimised`), and the
event trace. -/
structure JobResult where
  long_name : String
  failed : Option PyError
  events : List Event
  deriving DecidableEq, Repr

/-- Lines 69-168, `Victor.__init__`. The name is slugified (line 95)
and the receptor file is read (line 97) before the `try` of line 107,
so a read failure propagates to the caller; everything the guarded
body raises is caught by line 167, logged as
`f'{self.long_name} — {err.__class__.__name__}: {err}'` and absorbed,
leaving the job in the failed terminal state. -/
def victor_init (inp : VictorInputs) (cfg : VictorConfig) (orc : Oracles) :
    Except PyError JobResult :=
  let long_name := slugify inp.long_name
  match orc.fileRead with
  | .error e => .error e
  | .ok _apo =>
    match victorBody inp cfg orc long_name with
    | (evs, .ok ()) => .ok { long_name := long_name, failed := none, events := evs }
    | (evs, .error e) =>
      .ok { long_name := long_name
          , failed := some e
          , events := evs ++ [Event.logException
              (long_name ++ " — " ++ e.className ++ ": " ++ e.message)] }

/-! ### Helper lemmas -/

/-- Sequencing after a raising step keeps the events and the error. -/
theorem bindE_liftE_error {α β : Type} (e : PyError) (f : α → M β) :
    bindE (liftE (.error e)) f = ([], .error e) := rfl

/-- Sequencing after a successful pure step is the continuation. -/
theorem bindE_liftE_ok {α β : Type} (x : α) (f : α → M β) :
    bindE (liftE (.ok x)) f = f x := rfl

/-- Sequencing after an event emission prepends the events. -/
theorem bindE_emit {β : Type} (evs : List Event) (f : Unit → M β) :
    bindE (emit evs) f = (evs ++ (f ()).1, (f ()).2) := rfl

/-- Sequencing after a pure value is the continuation. -/
theorem bindE_pureE {α β : Type} (x : α) (f : α → M β) :
    bindE (pureE x) f = f x := rfl

/-- Sequencing after an explicit successful step. -/
theorem bindE_pair_ok {α β : Type} (evs : List Event) (x : α) (f : α → M β) :
    bindE (evs, .ok x) f = (evs ++ (f x).1, (f x).2) := rfl

/-- Sequencing after an explicit raising step. -/
theorem bindE_pair_error {α β : Type} (evs : List Event) (e : PyError) (f : α → M β) :
    bindE (evs, .error e) f = (evs, .error e) := rfl

/-- A catalog in which no entry matches yields no warhead. -/
theorem find_warhead_none (hasSub : String → Bool) (ws : List WarheadDef)
    (h : ∀ w ∈ ws, hasSub w.covalent = false) :
    find_warhead hasSub ws = none := by
  induction ws with
  | nil => rfl
  | cons v vs ih =>
    unfold find_warhead
    rw [h v (List.mem_cons_self v vs)]
    exact ih (fun x hx => h x (List.mem_cons_of_mem _ hx))

/-- The first matching catalog entry is the one the loop selects,
whatever follows it. -/
theorem find_warhead_first (hasSub : String → Bool) (pre post : List WarheadDef)
    (w : WarheadDef) (hpre : ∀ v ∈ pre, hasSub v.covalent = false)
    (hw : hasSub w.covalent = true) :
    find_warhead hasSub (pre ++ w :: post) = some w := by
  induction pre with
  | nil => simp [find_warhead, hw]
  | cons v vs ih =>
    rw [List.cons_append]
    unfold find_warhead
    rw [hpre v (List.mem_cons_self v vs)]
    simp only [Bool.false_eq_true, if_false]
    exact ih (fun x hx => hpre x (List.mem_cons_of_mem _ hx))

/-- Surviving every `remove (name c)` pass means the atom was loaded
and its name is outside the removed set. -/
theorem mem_removeByNames (ns : List String) (atoms : List PdbAtom) (a : PdbAtom)
    (h : a ∈ removeByNames ns atoms) : a ∈ atoms ∧ ∀ c ∈ ns, a.name ≠ c := by
  induction ns generalizing atoms with
  | nil => exact ⟨h, by simp⟩
  | cons c cs ih =>
    have h' : a ∈ removeByNames cs (atoms.filter (fun x => x.name != c)) := h
    rcases ih _ h' with ⟨hmem, hall⟩
    have hf := List.mem_filter.mp hmem
    refine ⟨hf.1, ?_⟩
    intro d hd
    rcases List.mem_cons.mp hd with rfl | hd'
    · simpa using hf.2
    · exact hall d hd'

/-! ### C2 -/

/-- C2: for a covalent job whose candidate matches at least one catalog
entry, `_fix_covalent` selects exactly the first entry in catalog order
whose covalent pattern matches (entries after it are irrelevant), and
swapping two matching entries swaps which one wins, so the selection
depends only on catalog order. -/
theorem C2_first_catalog_match_wins
    (hasSub : String → Bool) (pre post : List WarheadDef) (w : WarheadDef)
    (covalent_definitions : List CovDef) (covd : CovDef) (rest : List CovDef)
    (long_name covalent_resn ligand_resi target_resi : String)
    (hpre : ∀ v ∈ pre, hasSub v.covalent = false)
    (hw : hasSub w.covalent = true)
    (hcd : covalent_definitions.filter (fun d => d.residue == covalent_resn)
      = covd :: rest) :
    fix_covalent long_name hasSub (pre ++ w :: post) covalent_definitions
        covalent_resn ligand_resi target_resi
      = .ok (warhead_constraints w covd ligand_resi target_resi) ∧
    ∀ a b : WarheadDef, ∀ tail : List WarheadDef,
      hasSub a.covalent = true → hasSub b.covalent = true →
      find_warhead hasSub (a :: b :: tail) = some a ∧
      find_warhead hasSub (b :: a :: tail) = some b := by
  constructor
  · unfold fix_covalent
    rw [find_warhead_first hasSub pre post w hpre hw, hcd]
  · intro a b tail ha hb
    exact ⟨by simp [find_warhead, ha], by simp [find_warhead, hb]⟩

/-- C2 witness: a two-entry catalog where only the second entry
matches, and the swap property at two matching entries. -/
theorem C2_witness :
    (∀ v ∈ [WarheadDef.mk "iso" "N=C=S" [] "NC=S" [] none],
      (fun s => s == "C(=O)C=C") v.covalent = false) ∧
    ([CovDef.mk "CYS" "*SC" ["CONN3", "SG", "CB"]].filter
      (fun d => d.residue == "CYS") = [CovDef.mk "CYS" "*SC" ["CONN3", "SG", "CB"]]) ∧
    (fix_covalent "lig" (fun s => s == "C(=O)C=C")
        ([WarheadDef.mk "iso" "N=C=S" [] "NC=S" [] none] ++
          WarheadDef.mk "acry" "C(=O)C=C" ["CX"] "C(=O)CC" ["CX"] none :: [])
        [CovDef.mk "CYS" "*SC" ["CONN3", "SG", "CB"]] "CYS" "1B" "145A"
      = .ok (warhead_constraints (WarheadDef.mk "acry" "C(=O)C=C" ["CX"] "C(=O)CC" ["CX"] none)
          (CovDef.mk "CYS" "*SC" ["CONN3", "SG", "CB"]) "1B" "145A")) ∧
    (∀ a b : WarheadDef, ∀ tail : List WarheadDef,
      (fun s => s == "C(=O)C=C") a.covalent = true →
      (fun s => s == "C(=O)C=C") b.covalent = true →
      find_warhead (fun s => s == "C(=O)C=C") (a :: b :: tail) = some a ∧
      find_warhead (fun s => s == "C(=O)C=C") (b :: a :: tail) = some b) := by
  refine ⟨by decide, by decide, ?_⟩
  exact C2_first_catalog_match_wins (fun s => s == "C(=O)C=C")
    [WarheadDef.mk "iso" "N=C=S" [] "NC=S" [] none] []
    (WarheadDef.mk "acry" "C(=O)C=C" ["CX"] "C(=O)CC" ["CX"] none)
    [CovDef.mk "CYS" "*SC" ["CONN3", "SG", "CB"]]
    (CovDef.mk "CYS" "*SC" ["CONN3", "SG", "CB"]) []
    "lig" "CYS" "1B" "145A" (by decide) (by decide) (by decide)

/-! ### C4 -/

/-- A connection atom as it appears in a positioned molecule: PDB name
`CONN3` (a member of the connection atom-name set, per the cysteine
definition documented in the class docstring), element symbol `C`,
with an inherited position. -/
def connAtom : FragAtom :=
  { name := "CONN3", symbol := "C", resn := "LIG"
  , origin := true, stdev := 0, x := 1, y := 2, z := 3 }

/-- C4 evaluation at the failing input: line 200 compares the element
symbol, not the atom name, against the connection set, so the builder
emits a coordinate-restraint line for an atom whose name is in the
connection atom-name set (contradicting the claim that such atoms are
never restrained). -/
theorem C4_connection_named_atom_restrained :
    make_coordinate_constraints ["CONN3"] "1B" "145A" [connAtom]
      = [{ atom_name := "CONN3", ligand_resi := "1B", covalent_resi := "145A"
         , x := 1, y := 2, z := 3, width := 1 }]
    ∧ connAtom.origin = true ∧ connAtom.name ∈ ["CONN3"] := by
  refine ⟨?_, rfl, by decide⟩
  have hf : List.filter (fun a => a.origin && !(List.contains ["CONN3"] a.symbol))
      [connAtom] = [connAtom] := by decide
  unfold make_coordinate_constraints
  rw [hf]
  simp [coordLineOf, connAtom]

/-! ### C5 -/

/-- An atom inherited from a single reference position: its positional
spread statistic is zero. -/
def zeroSpreadAtom : FragAtom :=
  { name := " C1 ", symbol := "C", resn := "LIG"
  , origin := true, stdev := 0, x := 0, y := 0, z := 0 }

/-- C5 counterexample: at spread 0 the emitted restraint width is
exactly 1, which is not strictly greater than 1 — the claim's
"always > 1.0" fails. -/
theorem C5_width_one_at_zero_spread :
    (make_coordinate_constraints [] "1B" "145A" [zeroSpreadAtom]).map CoordLine.width
      = [1]
    ∧ ¬ ((1 : ℚ) > 1) := by
  refine ⟨?_, by norm_num⟩
  have hf : List.filter (fun a => a.origin && !(List.contains ([] : List String) a.symbol))
      [zeroSpreadAtom] = [zeroSpreadAtom] := by decide
  unfold make_coordinate_constraints
  rw [hf]
  simp [coordLineOf, zeroSpreadAtom]

/-- C5 amended: every emitted coordinate-restraint line has width equal
to that atom's spread plus 1, and — the spread statistic being
nonnegative — the width is at least 1 (hence strictly positive), with
equality exactly at spread 0. -/
theorem C5_width_is_spread_plus_one (connected : List String) (lr cr : String)
    (atoms : List FragAtom) (hnn : ∀ a ∈ atoms, 0 ≤ a.stdev) :
    ∀ l ∈ make_coordinate_constraints connected lr cr atoms,
      (∃ a ∈ atoms, a.origin = true ∧ l = coordLineOf lr cr a ∧ l.width = a.stdev + 1)
      ∧ 1 ≤ l.width := by
  intro l hl
  unfold make_coordinate_constraints at hl
  rcases List.mem_map.mp hl with ⟨a, hamem, rfl⟩
  have hfa := List.mem_filter.mp hamem
  have horigin : a.origin = true := by
    have := hfa.2
    simp only [Bool.and_eq_true] at this
    exact this.1
  refine ⟨⟨a, hfa.1, horigin, rfl, rfl⟩, ?_⟩
  have h0 := hnn a hfa.1
  show (1 : ℚ) ≤ a.stdev + 1
  linarith

/-- C5 amended witness: at spread 0 the emitted width is 0 + 1 = 1,
meeting the ≥ 1 floor. -/
theorem C5_width_floor_witness :
    (∀ a ∈ [zeroSpreadAtom], 0 ≤ a.stdev) ∧
    ∀ l ∈ make_coordinate_constraints [] "1B" "145A" [zeroSpreadAtom],
      (∃ a ∈ [zeroSpreadAtom], a.origin = true ∧ l = coordLineOf "1B" "145A" a
        ∧ l.width = a.stdev + 1)
      ∧ 1 ≤ l.width :=
  ⟨by decide, C5_width_is_spread_plus_one [] "1B" "145A" [zeroSpreadAtom] (by decide)⟩

/-! ### C8 -/

/-- C8: a job that produces a constraint assembles its text in the
fixed order — covalent-derived lines (rendered by the external class
from the seed, abstracted as `f`), then the warhead constraint template
verbatim, then the caller's extra constraint text, then the coordinate
restraint lines appended last by line 139; the non-covalent mock case
is the same order with empty covalent part. Both later additions are
pure appends to `custom_constraint`. -/
theorem C8_constraint_section_order
    (f : (String × String) → List String → String)
    (hasSub : String → Bool) (pre post : List WarheadDef) (w : WarheadDef)
    (covalent_definitions : List CovDef) (covd : CovDef) (rest : List CovDef)
    (long_name covalent_resn ligand_resi target_resi : String)
    (tmpl extra : String)
    (connected : List String) (lr cr : String) (atoms : List FragAtom)
    (hpre : ∀ v ∈ pre, hasSub v.covalent = false)
    (hw : hasSub w.covalent = true)
    (hcd : covalent_definitions.filter (fun d => d.residue == covalent_resn)
      = covd :: rest)
    (htmpl : w.constraint = some tmpl)
    (hextra : extra ≠ "") :
    (∃ c : ConstraintsModel,
      get_constraint long_name true hasSub (pre ++ w :: post) covalent_definitions
          covalent_resn ligand_resi target_resi (some extra) = .ok (some c) ∧
      append_coordinate_constraints connected lr cr atoms (some c)
        = .ok (some { c with custom_constraint :=
            c.custom_constraint ++ coordinate_constraint_text connected lr cr atoms }) ∧
      constraintText f { c with custom_constraint :=
            c.custom_constraint ++ coordinate_constraint_text connected lr cr atoms }
        = f (w.covalent, covd.smiles) (w.covalent_atomnames ++ covd.atomnames)
            ++ tmpl ++ extra ++ coordinate_constraint_text connected lr cr atoms) ∧
    (∃ m : ConstraintsModel,
      get_constraint long_name false hasSub (pre ++ w :: post) covalent_definitions
          covalent_resn ligand_resi target_resi (some extra) = .ok (some m) ∧
      constraintText f { m with custom_constraint :=
            m.custom_constraint ++ coordinate_constraint_text connected lr cr atoms }
        = extra ++ coordinate_constraint_text connected lr cr atoms) := by
  have hfix : fix_covalent long_name hasSub (pre ++ w :: post) covalent_definitions
      covalent_resn ligand_resi target_resi
      = .ok (warhead_constraints w covd ligand_resi target_resi) := by
    unfold fix_covalent
    rw [find_warhead_first hasSub pre post w hpre hw, hcd]
  constructor
  · refine ⟨{ warhead_constraints w covd ligand_resi target_resi with
        custom_constraint :=
          (warhead_constraints w covd ligand_resi target_resi).custom_constraint
            ++ extra }, ?_, rfl, ?_⟩
    · unfold get_constraint
      rw [hfix]
      simp [truthy, hextra]
    · unfold constraintText warhead_constraints
      simp only [htmpl]
      simp [String.append_assoc]
  · refine ⟨{ mockConstraints with
        custom_constraint := mockConstraints.custom_constraint ++ extra }, ?_, ?_⟩
    · unfold get_constraint
      simp [truthy, hextra]
    · unfold constraintText mockConstraints
      simp

/-- C8 witness: a concrete covalent catalog with a constraint template
and extra text. -/
theorem C8_witness :
    ((WarheadDef.mk "acry" "C(=O)C=C" ["CX"] "C(=O)CC" ["CX"]
        (some "TEMPLATE\n")).constraint = some "TEMPLATE\n") ∧
    (("EXTRA\n" : String) ≠ "") ∧
    ((∃ c : ConstraintsModel,
      get_constraint "lig" true (fun s => s == "C(=O)C=C")
          ([] ++ WarheadDef.mk "acry" "C(=O)C=C" ["CX"] "C(=O)CC" ["CX"]
            (some "TEMPLATE\n") :: [])
          [CovDef.mk "CYS" "*SC" ["CONN3", "SG", "CB"]]
          "CYS" "1B" "145A" (some "EXTRA\n") = .ok (some c) ∧
      append_coordinate_constraints ["CONN3"] "1B" "145A" [zeroSpreadAtom] (some c)
        = .ok (some { c with custom_constraint :=
            c.custom_constraint ++ coordinate_constraint_text ["CONN3"] "1B" "145A" [zeroSpreadAtom] }) ∧
      constraintText (fun _ _ => "SEED\n") { c with custom_constraint :=
            c.custom_constraint ++ coordinate_constraint_text ["CONN3"] "1B" "145A" [zeroSpreadAtom] }
        = (fun (_ : String × String) (_ : List String) => "SEED\n")
            ("C(=O)C=C", "*SC") (["CX"] ++ ["CONN3", "SG", "CB"])
            ++ "TEMPLATE\n" ++ "EXTRA\n"
            ++ coordinate_constraint_text ["CONN3"] "1B" "145A" [zeroSpreadAtom]) ∧
    (∃ m : ConstraintsModel,
      get_constraint "lig" false (fun s => s == "C(=O)C=C")
          ([] ++ WarheadDef.mk "acry" "C(=O)C=C" ["CX"] "C(=O)CC" ["CX"]
            (some "TEMPLATE\n") :: [])
          [CovDef.mk "CYS" "*SC" ["CONN3", "SG", "CB"]]
          "CYS" "1B" "145A" (some "EXTRA\n") = .ok (some m) ∧
      constraintText (fun _ _ => "SEED\n") { m with custom_constraint :=
            m.custom_constraint ++ coordinate_constraint_text ["CONN3"] "1B" "145A" [zeroSpreadAtom] }
        = "EXTRA\n" ++ coordinate_constraint_text ["CONN3"] "1B" "145A" [zeroSpreadAtom])) :=
  ⟨rfl, by decide,
    C8_constraint_section_order (fun _ _ => "SEED\n") (fun s => s == "C(=O)C=C")
      [] []
      (WarheadDef.mk "acry" "C(=O)C=C" ["CX"] "C(=O)CC" ["CX"] (some "TEMPLATE\n"))
      [CovDef.mk "CYS" "*SC" ["CONN3", "SG", "CB"]]
      (CovDef.mk "CYS" "*SC" ["CONN3", "SG", "CB"]) []
      "lig" "CYS" "1B" "145A" "TEMPLATE\n" "EXTRA\n"
      ["CONN3"] "1B" "145A" [zeroSpreadAtom]
      (by decide) (by decide) (by decide) rfl (by decide)⟩

/-! ### C9 -/

/-- C9: whenever `_place_fragmenstein` returns a merged structure, none
of its atoms carries the reserved `UNL` residue code, none is a dummy
atom (name `R`), and none bears a name from the connection atom-name
set — all such atoms were removed before the merged block was
emitted. -/
theorem C9_placer_strips_forbidden_atoms
    (connected : List String) (is_covalent : Bool)
    (ligand_resn covalent_resn ligand_resi : String)
    (covalent_resi : Option String) (connect_name : String)
    (apoAtoms : List PdbAtom) (fragAtoms : List FragAtom)
    (placed : PlacedModel)
    (h : place_fragmenstein connected is_covalent ligand_resn covalent_resn
        ligand_resi covalent_resi connect_name apoAtoms fragAtoms = .ok placed) :
    ∀ a ∈ placed.atoms, a.resn ≠ "UNL" ∧ a.name ≠ "R" ∧ ∀ c ∈ connected, a.name ≠ c := by
  unfold place_fragmenstein at h
  rcases hl : parse_resi ligand_resi with _ | ⟨lr, lc⟩ <;> rw [hl] at h
  · exact absurd h (by simp)
  rcases hp : parse_resi (pyStr covalent_resi) with _ | ⟨pr, pc⟩ <;> rw [hp] at h
  · exact absurd h (by simp)
  have hatoms : placed.atoms =
      (removeByNames connected
        (((apoAtoms ++ fragAtoms.map (fun a => PdbAtom.mk a.name a.resn lr
            (if lc.isEmpty then "B" else lc))).filter
          (fun a => a.name != "R")))).filter (fun a => a.resn != "UNL") := by
    cases is_covalent <;> simp only [Bool.false_eq_true, if_false, if_true,
      reduceIte, Except.ok.injEq] at h <;> rw [← h]
  intro a ha
  rw [hatoms] at ha
  have h1 := List.mem_filter.mp ha
  have h2 := mem_removeByNames connected _ a h1.1
  have h3 := List.mem_filter.mp h2.1
  refine ⟨by simpa using h1.2, by simpa using h3.2, h2.2⟩

/-- C9 witness: a concrete placement run with one receptor atom and one
scaffold atom, both surviving the strip. -/
theorem C9_witness :
    (place_fragmenstein ["CONN3"] false "LIG" "CYS" "1B" (some "145A") " CX "
        [PdbAtom.mk "CA" "ALA" "1" "A"]
        [FragAtom.mk " C1 " "C" "LIG" true 0 1 2 3]
      = .ok (PlacedModel.mk none
          [PdbAtom.mk "CA" "ALA" "1" "A", PdbAtom.mk " C1 " "LIG" "1" "B"])) ∧
    ∀ a ∈ (PlacedModel.mk none
        [PdbAtom.mk "CA" "ALA" "1" "A", PdbAtom.mk " C1 " "LIG" "1" "B"]).atoms,
      a.resn ≠ "UNL" ∧ a.name ≠ "R" ∧ ∀ c ∈ ["CONN3"], a.name ≠ c :=
  ⟨rfl,
    C9_placer_strips_forbidden_atoms ["CONN3"] false "LIG" "CYS" "1B" (some "145A")
      " CX " [PdbAtom.mk "CA" "ALA" "1" "A"]
      [FragAtom.mk " C1 " "C" "LIG" true 0 1 2 3] _ rfl⟩

/-! ### C1 and C10: the top-level failure boundary -/

/-- C1: once the pre-boundary receptor read has succeeded, the
constructor never propagates an exception: whatever any pipeline stage
raises, the job settles in a terminal state, and when that state is
failed the caught exception has been logged with the job identity, the
exception class name and the message (line 168). -/
theorem C1_top_level_failure_boundary (inp : VictorInputs) (cfg : VictorConfig)
    (orc : Oracles) (s : String) (hread : orc.fileRead = .ok s) :
    ∃ job : JobResult, victor_init inp cfg orc = .ok job ∧
      job.long_name = slugify inp.long_name ∧
      (job.failed = none ∨ ∃ e : PyError, job.failed = some e ∧
        Event.logException (slugify inp.long_name ++ " — " ++ e.className ++ ": "
          ++ e.message) ∈ job.events) := by
  simp only [victor_init]
  rw [hread]
  rcases hb : victorBody inp cfg orc (slugify inp.long_name) with ⟨evs, r⟩
  cases r with
  | ok u =>
    cases u
    exact ⟨_, rfl, rfl, Or.inl rfl⟩
  | error e =>
    exact ⟨_, rfl, rfl, Or.inr ⟨e, rfl, by simp⟩⟩

/-- C10: the receptor file is opened and read (line 97), after the name
slugification (line 95), before the `try` of line 107; a failing read
therefore escapes to the caller unchanged instead of being contained,
logged and turned into a failed job. -/
theorem C10_receptor_read_outside_boundary (inp : VictorInputs)
    (cfg : VictorConfig) (orc : Oracles) (e : PyError)
    (h : orc.fileRead = .error e) :
    victor_init inp cfg orc = .error e := by
  simp only [victor_init]
  rw [h]

/-! ### C7: eager validation -/

/-- A raising `covalent_precheck` raises exactly the line-110
`ValueError`. -/
theorem covalent_precheck_error (long_name smiles : String)
    (cr : Option String) (e : PyError)
    (h : covalent_precheck long_name smiles cr = .error e) :
    e = .valueError (long_name ++ " - is covalent but without known covalent residues") := by
  unfold covalent_precheck at h
  split_ifs at h with h1
  injection h with h2
  exact h2.symm

/-- Any violated input check makes `_assert_inputs` raise one of the
configuration errors (whichever check fails first). -/
theorem assert_inputs_error_of_violation (ln rn : String) (hc : Nat) (cn : String)
    (cds : List CovDef)
    (hviol : rn.length ≠ 3 ∨ hc = 0 ∨ rn = "UNL" ∨
      (cn ≠ "" ∧ cds.filter (fun d => d.residue == cn) = [])) :
    ∃ e : PyError, assert_inputs ln rn hc cn cds = .error e ∧
      e ∈ configuration_errors ln rn cn := by
  unfold assert_inputs
  split_ifs with h1 h2 h3 h4
  · exact ⟨_, rfl, by simp [configuration_errors]⟩
  · exact ⟨_, rfl, by simp [configuration_errors]⟩
  · exact ⟨_, rfl, by simp [configuration_errors]⟩
  · exact ⟨_, rfl, by simp [configuration_errors]⟩
  · rcases hviol with h | h | h | h
    exacts [absurd h h1, absurd h h2, absurd h h3, absurd h h4]

/-- Satisfied input checks let `_assert_inputs` pass. -/
theorem assert_inputs_ok (ln rn : String) (hc : Nat) (cn : String)
    (cds : List CovDef)
    (hlen : rn.length = 3) (hhc : hc ≠ 0) (hunl : rn ≠ "UNL")
    (hcd : cds.filter (fun d => d.residue == cn) ≠ []) :
    assert_inputs ln rn hc cn cds = .ok () := by
  unfold assert_inputs
  rw [if_neg (fun h => h hlen), if_neg hhc, if_neg hunl,
    if_neg (fun h => hcd h.2)]

/-- C7: a job violating an input precondition (ligand residue code not
three characters, the reserved `UNL` code, an empty hit list, or a
covalent residue type absent from the catalog) settles as failed with a
configuration error — the first failing check — and its trace contains
no directory creation, no file write and no external-process call:
validation happened before any side effect. -/
theorem C7_validation_before_side_effects (inp : VictorInputs)
    (cfg : VictorConfig) (orc : Oracles) (s : String)
    (hread : orc.fileRead = .ok s)
    (hviol : (pyUpper inp.ligand_resn).length ≠ 3 ∨
      pyUpper inp.ligand_resn = "UNL" ∨ inp.hits = [] ∨
      (pyUpper inp.covalent_resn ≠ "" ∧
        cfg.covalent_definitions.filter
          (fun d => d.residue == pyUpper inp.covalent_resn) = [])) :
    ∃ job : JobResult, ∃ err : PyError, victor_init inp cfg orc = .ok job ∧
      job.failed = some err ∧
      err ∈ configuration_errors (slugify inp.long_name) (pyUpper inp.ligand_resn)
        (pyUpper inp.covalent_resn) ∧
      job.events.all (fun ev => !(Event.isSideEffect ev)) = true := by
  simp only [victor_init]
  rw [hread]
  rcases hcp : covalent_precheck (slugify inp.long_name) inp.smiles inp.covalent_resi
    with e | b
  · have he := covalent_precheck_error _ _ _ _ hcp
    simp only [victorBody]
    rw [hcp, bindE_liftE_error]
    refine ⟨_, e, rfl, rfl, ?_, ?_⟩
    · rw [he]; simp [configuration_errors]
    · simp [Event.isSideEffect]
  · rcases assert_inputs_error_of_violation (slugify inp.long_name)
      (pyUpper inp.ligand_resn) inp.hits.length (pyUpper inp.covalent_resn)
      cfg.covalent_definitions
      (by rcases hviol with h | h | h | h
          · exact Or.inl h
          · exact Or.inr (Or.inr (Or.inl h))
          · exact Or.inr (Or.inl (by rw [h]; rfl))
          · exact Or.inr (Or.inr (Or.inr h)))
      with ⟨err, herr, hmem⟩
    simp only [victorBody]
    rw [hcp, bindE_liftE_ok, herr, bindE_liftE_error]
    exact ⟨_, err, rfl, rfl, hmem, by simp [Event.isSideEffect]⟩

/-! ### C6: unknown warhead is a hard stop -/

/-- The minimisation artifacts of a job (third checkpoint) and the
external minimiser call itself. -/
def isMinimisationArtifact (cfg : VictorConfig) (long_name : String)
    (ev : Event) : Bool :=
  ev == Event.write (jobFile cfg long_name ".holo_minimised.pdb") ||
  ev == Event.write (jobFile cfg long_name ".minimised.mol") ||
  ev == Event.writeJson (jobFile cfg long_name ".minimised.json")
    ["Energy", "mRMSD", "RMSDs"] ||
  ev == Event.minimiseRun

theorem isMin_mkdir (cfg : VictorConfig) (ln p : String) :
    isMinimisationArtifact cfg ln (Event.mkdir p) = false := rfl

theorem isMin_logInfo (cfg : VictorConfig) (ln m : String) :
    isMinimisationArtifact cfg ln (Event.logInfo m) = false := rfl

theorem isMin_logDebug (cfg : VictorConfig) (ln m : String) :
    isMinimisationArtifact cfg ln (Event.logDebug m) = false := rfl

theorem isMin_logWarning (cfg : VictorConfig) (ln m : String) :
    isMinimisationArtifact cfg ln (Event.logWarning m) = false := rfl

theorem isMin_logException (cfg : VictorConfig) (ln m : String) :
    isMinimisationArtifact cfg ln (Event.logException m) = false := rfl

theorem isMin_parameterize (cfg : VictorConfig) (ln : String) :
    isMinimisationArtifact cfg ln Event.parameterize = false := rfl

/-- Directory-creation events are never minimisation artifacts. -/
theorem folder_events_all_not_min (cfg : VictorConfig) (d : String → Bool)
    (ln p : String) :
    (folder_events cfg d ln).all
      (fun ev => !(isMinimisationArtifact cfg p ev)) = true := by
  unfold folder_events
  split_ifs <;> simp [isMin_mkdir, isMin_logWarning]

/-- C6: a covalent candidate matching no warhead-catalog entry makes
`_fix_covalent` raise the unknown-warhead `ValueError` — a hard stop,
with no fallback constraint: the job settles failed with exactly that
error, the error is logged with the job identity, and the trace has no
minimiser call and none of the minimisation artifacts. -/
theorem C6_unknown_warhead_hard_stop (inp : VictorInputs) (cfg : VictorConfig)
    (orc : Oracles) (s cr : String) (p : ParamsModel)
    (hread : orc.fileRead = .ok s)
    (hcov : pyContains inp.smiles '*' = true)
    (hresi : inp.covalent_resi = some cr)
    (hlen : (pyUpper inp.ligand_resn).length = 3)
    (hunl : pyUpper inp.ligand_resn ≠ "UNL")
    (hhits : inp.hits ≠ [])
    (hcdef : cfg.covalent_definitions.filter
      (fun d => d.residue == pyUpper inp.covalent_resn) ≠ [])
    (hparams : orc.paramsFromSmiles = .ok p)
    (hnomatch : ∀ w ∈ cfg.warhead_definitions, orc.hasSubstruct w.covalent = false) :
    ∃ job : JobResult, ∃ e : PyError, victor_init inp cfg orc = .ok job ∧
      job.failed = some e ∧
      e = .valueError (slugify inp.long_name ++ " - Unsure what the warhead is.") ∧
      Event.logException (slugify inp.long_name ++ " — " ++ e.className ++ ": "
        ++ e.message) ∈ job.events ∧
      job.events.all
        (fun ev => !(isMinimisationArtifact cfg (slugify inp.long_name) ev)) = true := by
  have hcp : covalent_precheck (slugify inp.long_name) inp.smiles inp.covalent_resi
      = .ok true := by
    unfold covalent_precheck
    rw [hresi, hcov]
    simp
  have hai : assert_inputs (slugify inp.long_name) (pyUpper inp.ligand_resn)
      inp.hits.length (pyUpper inp.covalent_resn) cfg.covalent_definitions
      = .ok () :=
    assert_inputs_ok _ _ _ _ _ hlen
      (fun h => hhits (List.length_eq_zero.mp h)) hunl hcdef
  have hgc : get_constraint (slugify inp.long_name) true orc.hasSubstruct
      cfg.warhead_definitions cfg.covalent_definitions (pyUpper inp.covalent_resn)
      inp.ligand_resi (pyStr inp.covalent_resi) inp.extra_constraint
      = .error (.valueError (slugify inp.long_name ++ " - Unsure what the warhead is.")) := by
    unfold get_constraint fix_covalent
    rw [find_warhead_none _ _ hnomatch]
    simp
  simp only [victor_init]
  rw [hread]
  simp only [victorBody, hcp, hai, hparams, hgc, liftE, emit, make_output_folder,
    bindE_pair_ok, bindE_pair_error]
  refine ⟨_, _, rfl, rfl, rfl, by simp, ?_⟩
  have hfold := folder_events_all_not_min cfg orc.dirExists (slugify inp.long_name)
    (slugify inp.long_name)
  simp only [List.all_eq_true] at hfold ⊢
  intro ev hev
  simp only [List.append_nil, List.nil_append, List.mem_append, List.mem_cons,
    List.mem_singleton, List.not_mem_nil, or_false, false_or] at hev
  rcases hev with (h | h | (h | h) | h) | h
  · rw [h]; simp [isMin_logInfo]
  · simpa using hfold ev h
  · rw [h]; simp [isMin_logDebug]
  · rw [h]; simp [isMin_parameterize]
  · rw [h]; simp [isMin_logWarning]
  · rw [h]; simp [isMin_logException]

/-! ### Concrete catalog, configuration and oracles for the closed runs -/

/-- A warhead-catalog entry (an acrylamide-style warhead carrying a
constraint template). -/
def wh0 : WarheadDef :=
  { name := "acrylamide", covalent := "C(=O)C=C"
  , covalent_atomnames := ["CZ", "OZ", "CY", "CX"]
  , noncovalent := "C(=O)CC", noncovalent_atomnames := ["CZ", "OZ", "CY", "CX"]
  , constraint := some "AtomPair SG 145A CX 1B HARMONIC 1.8 0.2\n" }

/-- The cysteine covalent-residue definition of the class docstring. -/
def cys0 : CovDef :=
  { residue := "CYS", smiles := "*SC", atomnames := ["CONN3", "SG", "CB"] }

/-- A concrete configuration. -/
def cfg0 : VictorConfig :=
  { work_path := "output", connected_names := ["LOWER", "UPPER", "CONN3"]
  , warhead_definitions := [wh0], covalent_definitions := [cys0] }

/-- Oracles in which every external collaborator succeeds and no
substructure matches. -/
def okOracles : Oracles :=
  { fileRead := .ok ""
  , dirExists := fun _ => false
  , paramsFromSmiles := .ok { connect_name := " CX " }
  , hasSubstruct := fun _ => false
  , attachmentAtom := .ok ()
  , postParamsHook := .ok ()
  , fragResult := .ok []
  , apoAtoms := []
  , postFragHook := .ok ()
  , paramsToPose := .ok ()
  , getScorefxn := .ok ()
  , egorInit := .ok ()
  , poseFxHook := .ok ()
  , poseModHook := .ok ()
  , pose2strA := .ok ""
  , minimiseCall := .ok ()
  , pose2strB := .ok ""
  , postEgorHook := .ok ()
  , ligandScore := .ok ()
  , molFromPose := .ok ()
  , assignBondOrders := .ok ()
  , mrmsdCalc := .ok () }

/-! ### C3 -/

/-- Scenario A inputs: a non-covalent candidate, one reference
fragment, a valid receptor, constructor defaults otherwise. -/
def scenarioA : VictorInputs :=
  { smiles := "CCO", hits := ["hit1"], long_name := "benzo"
  , ligand_resn := "LIG", ligand_resi := "1B", covalent_resn := "CYS"
  , covalent_resi := none, extra_constraint := none, pose_fx_present := false }

/-- File-creating events. -/
def isFileWrite : Event → Bool
  | .write _ => true
  | .writeJson _ _ => true
  | .mkdir _ => false
  | .parameterize => false
  | .minimiseRun => false
  | .logInfo _ => false
  | .logDebug _ => false
  | .logWarning _ => false
  | .logException _ => false

/-- C3 evaluation at the failing input: on Scenario A the pipeline dies
inside `_place_fragmenstein` — line 210 runs
`re.match('(\d+)(\D?)', str(self.covalent_resi)).groups()` on
`str(None)`, which has no leading digit, so `.groups()` is called on
`None` and raises `AttributeError`. The job ends failed before
`_checkpoint_bravo`, so no file at all is written: no
`.fragmenstein.json` (and, vacuously, no `.con`). -/
theorem C3_scenarioA_fails_before_bravo :
    ∃ job : JobResult, victor_init scenarioA cfg0 okOracles = .ok job ∧
      job.failed = some (.attributeError "NoneType object has no attribute groups") ∧
      job.events.all (fun ev => !(isFileWrite ev)) = true :=
  ⟨_, rfl, rfl, rfl⟩

/-! ### Remaining witnesses -/

/-- Inputs for the C1/C10 witnesses. -/
def inpC1 : VictorInputs :=
  { scenarioA with long_name := "mol_1 demo" }

/-- C1 witness: a concrete job whose receptor read succeeds. -/
theorem C1_witness :
    okOracles.fileRead = .ok "" ∧
    (∃ job : JobResult, victor_init inpC1 cfg0 okOracles = .ok job ∧
      job.long_name = slugify inpC1.long_name ∧
      (job.failed = none ∨ ∃ e : PyError, job.failed = some e ∧
        Event.logException (slugify inpC1.long_name ++ " — " ++ e.className ++ ": "
          ++ e.message) ∈ job.events)) :=
  ⟨rfl, C1_top_level_failure_boundary inpC1 cfg0 okOracles "" rfl⟩

/-- Oracles in which the receptor file cannot be opened. -/
def failReadOracles : Oracles :=
  { okOracles with
    fileRead := .error (.osError "No such file or directory: receptor.pdb") }

/-- C10 witness: the failing receptor read propagates to the caller. -/
theorem C10_witness :
    failReadOracles.fileRead
      = .error (.osError "No such file or directory: receptor.pdb") ∧
    victor_init inpC1 cfg0 failReadOracles
      = .error (.osError "No such file or directory: receptor.pdb") :=
  ⟨rfl, C10_receptor_read_outside_boundary inpC1 cfg0 failReadOracles _ rfl⟩

/-- Inputs with a two-character ligand residue code. -/
def badResnInput : VictorInputs :=
  { scenarioA with ligand_resn := "LI" }

/-- C7 witness: a job with a two-character residue code fails
validation before any side effect. -/
theorem C7_witness :
    ((pyUpper badResnInput.ligand_resn).length ≠ 3) ∧
    (∃ job : JobResult, ∃ err : PyError,
      victor_init badResnInput cfg0 okOracles = .ok job ∧
      job.failed = some err ∧
      err ∈ configuration_errors (slugify badResnInput.long_name)
        (pyUpper badResnInput.ligand_resn) (pyUpper badResnInput.covalent_resn) ∧
      job.events.all (fun ev => !(Event.isSideEffect ev)) = true) :=
  ⟨by decide, C7_validation_before_side_effects badResnInput cfg0 okOracles ""
    rfl (Or.inl (by decide))⟩

/-- A covalent candidate whose smiles matches no warhead entry. -/
def covalentNoMatchInput : VictorInputs :=
  { scenarioA with smiles := "*CC=C", covalent_resi := some "145A" }

/-- C6 witness: the no-match covalent run ends failed with the
unknown-warhead error and no minimisation artifacts. -/
theorem C6_witness :
    (pyContains covalentNoMatchInput.smiles '*' = true) ∧
    (∀ w ∈ cfg0.warhead_definitions, okOracles.hasSubstruct w.covalent = false) ∧
    (∃ job : JobResult, ∃ e : PyError,
      victor_init covalentNoMatchInput cfg0 okOracles = .ok job ∧
      job.failed = some e ∧
      e = .valueError (slugify covalentNoMatchInput.long_name
        ++ " - Unsure what the warhead is.") ∧
      Event.logException (slugify covalentNoMatchInput.long_name ++ " — "
        ++ e.className ++ ": " ++ e.message) ∈ job.events ∧
      job.events.all (fun ev => !(isMinimisationArtifact cfg0
        (slugify covalentNoMatchInput.long_name) ev)) = true) :=
  ⟨by decide, by decide,
    C6_unknown_warhead_hard_stop covalentNoMatchInput cfg0 okOracles "" "145A"
      { connect_name := " CX " } rfl (by decide) rfl (by decide) (by decide)
      (by decide) (by decide) rfl (by decide)⟩

end Fragmenstein
